import Mathlib

/-!
Verification of the kportforward supervision engine against its
natural-language specification.

The Go source is shallowly embedded: effectful boundaries (the operating
system's TCP port table, the process table, the spawn primitive, the
external CLI) become explicit parameters, and each Go method becomes a
pure Lean function from a state (plus such an environment) to a new state
together with an observable outcome (returned error, list of pids spawned,
list of pids signalled).  Times are natural numbers counting seconds;
the zero value of Go's `time.Time` is `0`.
-/

set_option autoImplicit false

namespace Kpf

/-! ## Port arbitration (`internal/utils/ports.go`)

`avail : Nat → Bool` stands for the operating system's answer to
`IsPortAvailable` (a point-in-time bind attempt).  Assigning a port inside
`ResolvePortConflicts` does not bind it, so the observation function is
unchanged throughout one bulk resolution. -/

/-- Embedding of `IsPortAvailable`: delegate to the OS observation. -/
def isPortAvailable (avail : Nat → Bool) (port : Nat) : Bool :=
  avail port

/-- Loop body of `FindAvailablePort`: try `port`, `port+1`, … for `fuel`
iterations. -/
def findAvailablePortAux (avail : Nat → Bool) (port fuel : Nat) : Option Nat :=
  match fuel with
  | 0 => none
  | Nat.succ fuel =>
      if isPortAvailable avail port then some port
      else findAvailablePortAux avail (port + 1) fuel

/-- Embedding of `FindAvailablePort`: the Go loop
`for port := startPort; port <= 65535; port++` visits the ports
`startPort … 65535`, hence `65536 - startPort` iterations (zero when
`startPort > 65535`, in which case the Go function returns an error). -/
def findAvailablePort (avail : Nat → Bool) (startPort : Nat) : Option Nat :=
  findAvailablePortAux avail startPort (65536 - startPort)

/-- Embedding of `utils.ServiceConfig`. -/
structure ServiceConfig where
  localPort : Nat
deriving Repr, DecidableEq

/-- State threaded through both passes of `ResolvePortConflicts`:
the `portAssignments` map (as an association list in insertion order) and
the `usedPorts` set (as a list). -/
structure ResolveState where
  assignments : List (String × Nat)
  usedPorts : List Nat
deriving Repr, DecidableEq

/-- First pass of `ResolvePortConflicts`: assign `service.LocalPort` when it
is available and not yet used. -/
def resolvePassA (avail : Nat → Bool) (services : List (String × ServiceConfig)) :
    ResolveState :=
  services.foldl
    (fun st nc =>
      if isPortAvailable avail nc.2.localPort && !(st.usedPorts.contains nc.2.localPort) then
        { assignments := st.assignments ++ [(nc.1, nc.2.localPort)]
          usedPorts := st.usedPorts ++ [nc.2.localPort] }
      else st)
    { assignments := [], usedPorts := [] }

/-- Second pass of `ResolvePortConflicts`: for every service not yet
assigned, take `FindAvailablePort(service.LocalPort)`.  Note the Go code
passes only the start port: the `usedPorts` set is not consulted here. -/
def resolvePassB (avail : Nat → Bool) (services : List (String × ServiceConfig))
    (st0 : ResolveState) : Option ResolveState :=
  services.foldl
    (fun acc nc =>
      match acc with
      | none => none
      | some st =>
          if (st.assignments.lookup nc.1).isSome then some st
          else
            match findAvailablePort avail nc.2.localPort with
            | none => none
            | some newPort =>
                some { assignments := st.assignments ++ [(nc.1, newPort)]
                       usedPorts := st.usedPorts ++ [newPort] })
    (some st0)

/-- Embedding of `ResolvePortConflicts`.  Go iterates a map in an
unspecified order; the embedding takes the iteration order as the order of
the input list (the same list drives both passes). -/
def resolvePortConflicts (avail : Nat → Bool) (services : List (String × ServiceConfig)) :
    Option (List (String × Nat)) :=
  (resolvePassB avail services (resolvePassA avail services)).map (·.assignments)

/-- The ports assigned by a resolution result. -/
def assignedPorts (r : List (String × Nat)) : List Nat := r.map (·.2)

/-! ## Process utilities (`internal/utils/process.go`, Unix paths)

`aliveSet : Int → Bool` stands for the process table: whether a null
signal to the pid succeeds. -/

/-- Embedding of `IsProcessRunning` (Unix path): non-positive pids are
rejected up front, otherwise the null-signal probe decides. -/
def isProcessRunning (aliveSet : Int → Bool) (pid : Int) : Bool :=
  if pid ≤ 0 then false
  else aliveSet pid

/-- Embedding of `KillProcess` (Unix path): the returned value pairs the
Go error result with the list of pids actually signalled (SIGTERM, with a
SIGKILL fallback — either way the same single pid). -/
def killProcess (pid : Int) : Except String Unit × List Int :=
  if pid ≤ 0 then (Except.error ("invalid PID: " ++ toString pid), [])
  else (Except.ok (), [pid])

/-! ## The per-service supervisor (`internal/portforward/service.go`)

A `ServiceManager` is embedded as the record of its mutable fields.  The
effectful environment of one `Start` call — the clock, the port table and
the outcome of `StartKubectlPortForward` — is a `StartEnv`.  Each
operation returns a `StepOut`: the new state, the Go error result, and
the pids spawned and signalled during the call. -/

/-- Embedding of `config.ServiceStatus` (the fields service.go touches). -/
structure ServiceStatus where
  name : String
  phase : String
  localPort : Nat
  pid : Int
  startTime : Nat
  restartCount : Nat
  lastError : String
  inCooldown : Bool
deriving Repr, DecidableEq

/-- Embedding of the mutable part of `ServiceManager`. -/
structure SMState where
  cfgLocalPort : Nat
  cfgTargetPort : Nat
  status : ServiceStatus
  cmd : Option Int
  failureCount : Nat
  cooldownUntil : Nat
  backoffSeconds : List Nat
deriving Repr, DecidableEq

/-- Embedding of `NewServiceManager`. -/
def newServiceManager (name : String) (localPort targetPort : Nat) : SMState :=
  { cfgLocalPort := localPort
    cfgTargetPort := targetPort
    status := { name := name, phase := "Starting", localPort := localPort,
                pid := 0, startTime := 0, restartCount := 0,
                lastError := "", inCooldown := false }
    cmd := none
    failureCount := 0
    cooldownUntil := 0
    backoffSeconds := [5, 10, 20, 40, 60] }

/-- Environment of one `Start` call: the current time, the OS port table,
and the result of `StartKubectlPortForward` (`some pid` on success,
`none` when the spawn fails). -/
structure StartEnv where
  now : Nat
  avail : Nat → Bool
  spawn : Option Int

/-- Result of one supervisor operation. -/
structure StepOut where
  state : SMState
  err : Option String
  spawned : List Int
  killed : List Int
deriving Repr, DecidableEq

/-- Embedding of `isInCooldown`: `time.Now().Before(cooldownUntil)`. -/
def isInCooldown (now : Nat) (sm : SMState) : Bool :=
  now < sm.cooldownUntil

/-- Embedding of `handleFailure`: bump `failureCount`; below 3 failures no
cooldown; otherwise index the backoff ladder at `failureCount - 3`,
capped at the last element, and set `cooldownUntil = now + duration`. -/
def handleFailure (now : Nat) (sm : SMState) : SMState :=
  let sm := { sm with failureCount := sm.failureCount + 1 }
  if sm.failureCount < 3 then sm
  else
    let backoffIndex := sm.failureCount - 3
    let backoffIndex :=
      if backoffIndex ≥ sm.backoffSeconds.length then sm.backoffSeconds.length - 1
      else backoffIndex
    { sm with cooldownUntil := now + sm.backoffSeconds.getD backoffIndex 0 }

/-- Embedding of `resolvePort`: keep the configured port when available,
otherwise search upward from `LocalPort + 1`. -/
def resolvePort (avail : Nat → Bool) (sm : SMState) : Option Nat :=
  if isPortAvailable avail sm.cfgLocalPort then some sm.cfgLocalPort
  else findAvailablePort avail (sm.cfgLocalPort + 1)

/-- Embedding of `ServiceManager.Start`.  In source order: refuse during
cooldown (marking the phase `Cooldown`), resolve the port (on failure mark
`Failed` and return the error — note: no `handleFailure` on this path),
spawn the child (on failure mark `Failed`, record the error, call
`handleFailure`, return the error), and on success record `cmd`, `PID`,
`StartTime`, phase `Running`, clear `LastError` and `InCooldown`. -/
def startSM (env : StartEnv) (sm : SMState) : StepOut :=
  if isInCooldown env.now sm then
    { state := { sm with status := { sm.status with phase := "Cooldown", inCooldown := true } }
      err := some "service is in cooldown"
      spawned := []
      killed := [] }
  else
    match resolvePort env.avail sm with
    | none =>
        { state := { sm with status :=
            { sm.status with phase := "Failed", lastError := "no available ports found" } }
          err := some "port resolution failed"
          spawned := []
          killed := [] }
    | some actualPort =>
        let sm := { sm with status := { sm.status with localPort := actualPort } }
        match env.spawn with
        | none =>
            let sm := { sm with status :=
              { sm.status with phase := "Failed",
                               lastError := "failed to start kubectl port-forward" } }
            { state := handleFailure env.now sm
              err := some "failed to start port-forward"
              spawned := []
              killed := [] }
        | some newPid =>
            let st := { sm.status with
              pid := newPid
              startTime := env.now
              phase := "Running"
              lastError := ""
              inCooldown := false }
            { state := { sm with cmd := some newPid, status := st }
              err := none
              spawned := [newPid]
              killed := [] }

/-- Embedding of `ServiceManager.Stop`: when a child is recorded, signal
it (a kill failure is only logged) and drop `cmd`; in every case set the
phase to `Stopped`, clear `PID`, and return nil. -/
def stopSM (sm : SMState) : StepOut :=
  match sm.cmd with
  | some oldPid =>
      { state := { sm with
          cmd := none
          status := { sm.status with phase := "Stopped", pid := 0 } }
        err := none
        spawned := []
        killed := (killProcess oldPid).2 }
  | none =>
      { state := { sm with status := { sm.status with phase := "Stopped", pid := 0 } }
        err := none
        spawned := []
        killed := [] }

/-- Embedding of `ServiceManager.Restart`: `Stop` (its error only logged),
then `RestartCount++`, then `Start`; the observable pids of both calls
accumulate. -/
def restartSM (env : StartEnv) (sm : SMState) : StepOut :=
  let o1 := stopSM sm
  let sm1 := { o1.state with status :=
    { o1.state.status with restartCount := o1.state.status.restartCount + 1 } }
  let o2 := startSM env sm1
  { state := o2.state
    err := o2.err
    spawned := o1.spawned ++ o2.spawned
    killed := o1.killed ++ o2.killed }

/-- Embedding of `IsHealthy`: no recorded child, a dead child, or a closed
port each make the probe fail.  `aliveSet` is the process table and
`connOk` the outcome of `CheckPortConnectivity`. -/
def isHealthy (aliveSet : Int → Bool) (connOk : Nat → Bool) (sm : SMState) : Bool :=
  match sm.cmd with
  | none => false
  | some childPid =>
      if !(isProcessRunning aliveSet childPid) then false
      else connOk sm.status.localPort

/-- Embedding of `GetStatus`: when the phase is `Running` and the health
probe fails, demote to `Failed` with `LastError = "Health check failed"`;
return the (possibly updated) status.  Nothing else in the state changes
and no process is signalled. -/
def getStatus (aliveSet : Int → Bool) (connOk : Nat → Bool) (sm : SMState) :
    SMState × ServiceStatus :=
  if sm.status.phase == "Running" && !(isHealthy aliveSet connOk sm) then
    let sm := { sm with status :=
      { sm.status with phase := "Failed", lastError := "Health check failed" } }
    (sm, sm.status)
  else (sm, sm.status)

/-- Embedding of `resetFailureCount` (defined in service.go; the repository
contains no call to it). -/
def resetFailureCount (sm : SMState) : SMState :=
  if sm.failureCount > 0 then
    { sm with failureCount := 0, cooldownUntil := 0 }
  else sm

/-! ## The coordinator (`internal/portforward/manager.go`)

Only the parts the claims touch are embedded: `Stop` (with the status
channel's close discipline — closing a closed Go channel panics) and
`checkKubernetesContext` (with the context probe's result abstracted as
an `Except`). -/

/-- Outcome of a coordinator operation: normal return or a runtime panic. -/
inductive StopOutcome where
  | ok
  | panicked (msg : String)
deriving Repr, DecidableEq

/-- Embedding of the coordinator fields that `Stop` reads or writes. -/
structure ManagerState where
  services : List (String × SMState)
  tickerActive : Bool
  cancelled : Bool
  statusChanClosed : Bool
deriving Repr, DecidableEq

/-- Semantics of Go's `close` on a channel: closing an already-closed
channel panics with `close of closed channel`. -/
def closeChan (closed : Bool) : Bool × StopOutcome :=
  if closed then (closed, StopOutcome.panicked "close of closed channel")
  else (true, StopOutcome.ok)

/-- Embedding of `Manager.Stop`: stop the ticker, `Stop` every service
(collecting the pids signalled), cancel the context, then
`close(m.statusChan)`.  The close is unconditional; UI-handler teardown
(which only calls the handlers' `StopService`) is omitted as it touches
none of the embedded fields. -/
def managerStop (m : ManagerState) : ManagerState × StopOutcome × List Int :=
  let stops := m.services.map fun (p : String × SMState) => (p.1, stopSM p.2)
  let m1 := { m with
    tickerActive := false
    services := stops.map fun (p : String × StepOut) => (p.1, p.2.state)
    cancelled := true }
  let c := closeChan m1.statusChanClosed
  ({ m1 with statusChanClosed := c.1 }, c.2,
    (stops.map fun (p : String × StepOut) => p.2.killed).flatten)

/-- Embedding of `Manager.checkKubernetesContext`: the probe result comes
in as an `Except`; on error the remembered context is kept and nothing is
restarted (the second component tells whether `restartAllServices` is
triggered); on a changed context the new value is remembered and a global
restart is triggered. -/
def checkKubernetesContext (probeResult : Except String String) (currentContext : String) :
    String × Bool :=
  match probeResult with
  | Except.error _ => (currentContext, false)
  | Except.ok newContext =>
      if newContext ≠ currentContext then (newContext, true)
      else (currentContext, false)

/-! ## Concrete states used by the claim theorems -/

/-- A fresh supervisor that has already failed twice (its spawn failed on
two earlier attempts, below the cooldown threshold). -/
def c6Supervisor : SMState :=
  { newServiceManager "svc" 9000 8080 with failureCount := 2 }

/-- A supervisor whose child (pid 100) is recorded and whose phase is
`Running`, with one failure on record. -/
def c5Running : SMState :=
  { newServiceManager "svc" 9000 8080 with
    cmd := some 100
    failureCount := 1
    status := { (newServiceManager "svc" 9000 8080).status with phase := "Running", pid := 100 } }

/-- A coordinator owning one running service, before any `Stop`. -/
def mgr0 : ManagerState :=
  { services := [("svc", c5Running)]
    tickerActive := true
    cancelled := false
    statusChanClosed := false }

/-- Environment of a first `Start`: time 0, all ports free, the spawn
yields pid 100. -/
def c3Env1 : StartEnv := ⟨0, fun _ => true, some 100⟩

/-- Environment of a second `Start`: the spawn yields pid 101. -/
def c3Env2 : StartEnv := ⟨0, fun _ => true, some 101⟩

/-- The state a fresh supervisor reaches after one successful `Start`
under `c3Env1`: phase `Running`, child pid 100. -/
def c3Running : SMState :=
  (startSM c3Env1 (newServiceManager "svc" 9000 8080)).state

/-- Forget a supervisor state's `restartCount` (for comparing two states
up to that counter). -/
def eraseRestartCount (sm : SMState) : SMState :=
  { sm with status := { sm.status with restartCount := 0 } }

/-! ## Claim theorems -/

/-- C1: `ResolvePortConflicts` is claimed to return pairwise-distinct
ports because the repair pass assigns only ports outside the reserved
set.  The code's second pass calls `FindAvailablePort` with the start
port alone and never consults `usedPorts`: with two services both
desiring port 9000 on a host where 9000 is observably free (nothing is
bound during resolution), both services are assigned 9000. -/
theorem resolveAll_duplicate_ports :
    resolvePortConflicts (fun _ => true) [("a", ⟨9000⟩), ("b", ⟨9000⟩)] =
      some [("a", 9000), ("b", 9000)] ∧
    ¬ List.Nodup (assignedPorts [("a", 9000), ("b", 9000)]) :=
  ⟨rfl, by decide⟩

/-- C2: `Manager.Stop` is claimed to be safe to call twice.  The first
call returns normally, but it closes the status channel unconditionally,
so the second call runs `close` on an already-closed channel and panics. -/
theorem managerStop_second_call_panics :
    (managerStop mgr0).2.1 = StopOutcome.ok ∧
    (managerStop (managerStop mgr0).1).2.1 =
      StopOutcome.panicked "close of closed channel" :=
  ⟨rfl, rfl⟩

/-- C6: a successful `Start` (spawn succeeded, phase becomes `Running`)
is claimed to reset the failure streak to zero.  The success path of
`Start` never touches `failureCount`, and `resetFailureCount` — the
function written for exactly this purpose — has no caller anywhere in
the repository: a supervisor with two recorded failures still has
`failureCount = 2` after a fully successful `Start`. -/
theorem start_success_keeps_failure_streak :
    (startSM ⟨50, fun _ => true, some 200⟩ c6Supervisor).state.status.phase = "Running" ∧
    (startSM ⟨50, fun _ => true, some 200⟩ c6Supervisor).err = none ∧
    (startSM ⟨50, fun _ => true, some 200⟩ c6Supervisor).state.failureCount = 2 ∧
    resetFailureCount c6Supervisor ≠ c6Supervisor :=
  ⟨rfl, rfl, rfl, by decide⟩

/-- C9: when the context probe fails, `checkKubernetesContext` returns
immediately after logging: the remembered context is unchanged and no
global restart is triggered. -/
theorem checkContext_error_keeps_context (e ctx : String) :
    checkKubernetesContext (Except.error e) ctx = (ctx, false) :=
  rfl

/-- C10: both process-interface entry points reject non-positive pids
before touching the process table: `IsProcessRunning` answers `false`
and `KillProcess` returns the invalid-PID error having signalled
nothing. -/
theorem nonpositive_pid_rejected (aliveSet : Int → Bool) (pid : Int) (h : pid ≤ 0) :
    isProcessRunning aliveSet pid = false ∧
    (killProcess pid).1 = Except.error ("invalid PID: " ++ toString pid) ∧
    (killProcess pid).2 = [] := by
  refine ⟨?_, ?_, ?_⟩ <;> simp [isProcessRunning, killProcess, h]

/-- C10 witness: the cleared pid value 0 in particular is never probed
as alive and never signalled. -/
theorem nonpositive_pid_rejected_witness :
    isProcessRunning (fun _ => true) 0 = false ∧
    (killProcess 0).1 = Except.error ("invalid PID: " ++ toString (0 : Int)) ∧
    (killProcess 0).2 = [] :=
  nonpositive_pid_rejected (fun _ => true) 0 (by decide)

/-- C3 counterexample: `Start` on an already-`Running` supervisor is not
a no-op.  From the `Running` state produced by a single `Start` (child
pid 100), a second `Start` spawns a second child (pid 101) and
overwrites `cmd`, so its observable effect differs from that of the
single `Start`. -/
theorem start_second_call_spawns_new_child :
    c3Running.status.phase = "Running" ∧
    c3Running.cmd = some 100 ∧
    (startSM c3Env2 c3Running).spawned = [101] ∧
    (startSM c3Env2 c3Running).state.cmd ≠ some 100 :=
  ⟨rfl, rfl, rfl, by decide⟩

/-- C3 amended: `Start` never checks whether the service is already
`Running`.  On a `Running` supervisor that is not in cooldown, with the
desired port available and the spawn yielding pid `p`, `Start` returns
success and spawns a fresh child `p`, overwriting the recorded command. -/
theorem start_on_running_respawns (env : StartEnv) (sm : SMState) (p : Int)
    (_hrun : sm.status.phase = "Running")
    (hcd : isInCooldown env.now sm = false)
    (hport : env.avail sm.cfgLocalPort = true)
    (hspawn : env.spawn = some p) :
    (startSM env sm).err = none ∧
    (startSM env sm).spawned = [p] ∧
    (startSM env sm).state.cmd = some p ∧
    (startSM env sm).state.status.phase = "Running" := by
  refine ⟨?_, ?_, ?_, ?_⟩ <;>
    simp [startSM, hcd, resolvePort, isPortAvailable, hport, hspawn]

/-- C3 amended, witness: the concrete second `Start` above. -/
theorem start_on_running_respawns_witness :
    (startSM c3Env2 c3Running).err = none ∧
    (startSM c3Env2 c3Running).spawned = [101] ∧
    (startSM c3Env2 c3Running).state.cmd = some 101 ∧
    (startSM c3Env2 c3Running).state.status.phase = "Running" :=
  start_on_running_respawns c3Env2 c3Running 101 rfl rfl rfl rfl

/-- C4: `handleFailure` bumps the failure count to `f`; while `f < 3` the
cooldown timestamp is untouched, and once `f ≥ 3` the supervisor enters
cooldown for `[5, 10, 20, 40, 60].get (min (f - 3) 4)` seconds — in
particular 60 seconds for every `f ≥ 7`. -/
theorem handleFailure_ladder (now : Nat) (sm : SMState)
    (hl : sm.backoffSeconds = [5, 10, 20, 40, 60]) :
    (handleFailure now sm).failureCount = sm.failureCount + 1 ∧
    (sm.failureCount + 1 < 3 →
      (handleFailure now sm).cooldownUntil = sm.cooldownUntil) ∧
    (3 ≤ sm.failureCount + 1 →
      (handleFailure now sm).cooldownUntil =
        now + List.getD [5, 10, 20, 40, 60] (min (sm.failureCount + 1 - 3) 4) 0) ∧
    (7 ≤ sm.failureCount + 1 →
      (handleFailure now sm).cooldownUntil = now + 60) := by
  obtain ⟨a, b, st, cmdv, fc, cu, bs⟩ := sm
  simp only at hl ⊢
  subst hl
  by_cases hf : fc + 1 < 3
  · have he : handleFailure now ⟨a, b, st, cmdv, fc, cu, [5, 10, 20, 40, 60]⟩ =
        ⟨a, b, st, cmdv, fc + 1, cu, [5, 10, 20, 40, 60]⟩ := by
      simp [handleFailure, hf]
    rw [he]
    exact ⟨rfl, fun _ => rfl, fun h3 => absurd h3 (by omega), fun h7 => absurd h7 (by omega)⟩
  · by_cases h5 : fc + 1 - 3 ≥ 5
    · have h5b : 5 ≤ fc - 2 := by omega
      have he : handleFailure now ⟨a, b, st, cmdv, fc, cu, [5, 10, 20, 40, 60]⟩ =
          ⟨a, b, st, cmdv, fc + 1, now + 60, [5, 10, 20, 40, 60]⟩ := by
        simp [handleFailure, hf, h5b]
      rw [he]
      have hm : min (fc + 1 - 3) 4 = 4 := by omega
      exact ⟨rfl, fun h => absurd h hf, fun _ => by rw [hm]; rfl, fun _ => rfl⟩
    · have h5b : ¬ 5 ≤ fc - 2 := by omega
      have he : handleFailure now ⟨a, b, st, cmdv, fc, cu, [5, 10, 20, 40, 60]⟩ =
          ⟨a, b, st, cmdv, fc + 1,
            now + List.getD [5, 10, 20, 40, 60] (fc + 1 - 3) 0, [5, 10, 20, 40, 60]⟩ := by
        simp [handleFailure, hf, h5b]
      rw [he]
      have hm : min (fc + 1 - 3) 4 = fc + 1 - 3 := by omega
      refine ⟨rfl, fun h => absurd h hf, fun _ => by rw [hm], fun h7 => ?_⟩
      have h4 : fc + 1 - 3 = 4 := by omega
      rw [h4]
      rfl

/-- C4 witness: a seventh failure (count 6 → 7) sets a 60-second
cooldown from `now = 100`. -/
theorem handleFailure_ladder_witness :
    (handleFailure 100 { newServiceManager "svc" 9000 8080 with failureCount := 6 }).failureCount =
      { newServiceManager "svc" 9000 8080 with failureCount := 6 }.failureCount + 1 ∧
    ({ newServiceManager "svc" 9000 8080 with failureCount := 6 }.failureCount + 1 < 3 →
      (handleFailure 100 { newServiceManager "svc" 9000 8080 with failureCount := 6 }).cooldownUntil =
        { newServiceManager "svc" 9000 8080 with failureCount := 6 }.cooldownUntil) ∧
    (3 ≤ { newServiceManager "svc" 9000 8080 with failureCount := 6 }.failureCount + 1 →
      (handleFailure 100 { newServiceManager "svc" 9000 8080 with failureCount := 6 }).cooldownUntil =
        100 + List.getD [5, 10, 20, 40, 60]
          (min ({ newServiceManager "svc" 9000 8080 with failureCount := 6 }.failureCount + 1 - 3) 4) 0) ∧
    (7 ≤ { newServiceManager "svc" 9000 8080 with failureCount := 6 }.failureCount + 1 →
      (handleFailure 100 { newServiceManager "svc" 9000 8080 with failureCount := 6 }).cooldownUntil =
        100 + 60) :=
  handleFailure_ladder 100 { newServiceManager "svc" 9000 8080 with failureCount := 6 } rfl

/-- C5 counterexample: a status read of a `Running` supervisor whose
probe fails (child 100 dead in the process table) demotes the phase and
records the error, but the failure streak stays at 1 (the claim requires
2) and the child is neither killed nor forgotten: `cmd` still holds
pid 100. -/
theorem getStatus_no_kill_no_streak_bump :
    (getStatus (fun _ => false) (fun _ => true) c5Running).1.status.phase = "Failed" ∧
    (getStatus (fun _ => false) (fun _ => true) c5Running).1.failureCount = 1 ∧
    (getStatus (fun _ => false) (fun _ => true) c5Running).1.cmd = some 100 :=
  ⟨rfl, rfl, rfl⟩

/-- C5 amended: on a failed probe of a `Running` supervisor, the status
read transitions the phase to `Failed` and records `"Health check
failed"` in `lastError`; it leaves the failure streak and the recorded
child untouched (the kill only happens later, when the coordinator
restarts the failed service). -/
theorem getStatus_probe_failure_demotes (aliveSet : Int → Bool) (connOk : Nat → Bool)
    (sm : SMState)
    (hrun : sm.status.phase = "Running")
    (hfail : isHealthy aliveSet connOk sm = false) :
    (getStatus aliveSet connOk sm).1.status.phase = "Failed" ∧
    (getStatus aliveSet connOk sm).1.status.lastError = "Health check failed" ∧
    (getStatus aliveSet connOk sm).1.failureCount = sm.failureCount ∧
    (getStatus aliveSet connOk sm).1.cmd = sm.cmd := by
  have hb : (sm.status.phase == "Running") = true := by
    simp [hrun]
  refine ⟨?_, ?_, ?_, ?_⟩ <;> simp [getStatus, hb, hfail]

/-- C5 amended, witness: the concrete `Running` supervisor with a dead
child. -/
theorem getStatus_probe_failure_demotes_witness :
    (getStatus (fun _ => false) (fun _ => true) c5Running).1.status.phase = "Failed" ∧
    (getStatus (fun _ => false) (fun _ => true) c5Running).1.status.lastError =
      "Health check failed" ∧
    (getStatus (fun _ => false) (fun _ => true) c5Running).1.failureCount =
      c5Running.failureCount ∧
    (getStatus (fun _ => false) (fun _ => true) c5Running).1.cmd = c5Running.cmd :=
  getStatus_probe_failure_demotes (fun _ => false) (fun _ => true) c5Running rfl rfl

/-- C7: while the clock is strictly before `cooldownUntil`, `Start`
refuses: it returns an error, spawns nothing, marks the phase `Cooldown`
with the cooldown flag set, and leaves the recorded child untouched. -/
theorem start_refused_in_cooldown (env : StartEnv) (sm : SMState)
    (h : env.now < sm.cooldownUntil) :
    (startSM env sm).err.isSome = true ∧
    (startSM env sm).spawned = [] ∧
    (startSM env sm).state.status.phase = "Cooldown" ∧
    (startSM env sm).state.status.inCooldown = true ∧
    (startSM env sm).state.cmd = sm.cmd := by
  have hc : isInCooldown env.now sm = true := by
    simp [isInCooldown, h]
  refine ⟨?_, ?_, ?_, ?_, ?_⟩ <;> simp [startSM, hc]

/-- C7 witness: at time 5, a supervisor whose cooldown runs to time 10
refuses to spawn. -/
theorem start_refused_in_cooldown_witness :
    (startSM ⟨5, fun _ => true, some 100⟩
        { newServiceManager "svc" 9000 8080 with cooldownUntil := 10 }).err.isSome = true ∧
    (startSM ⟨5, fun _ => true, some 100⟩
        { newServiceManager "svc" 9000 8080 with cooldownUntil := 10 }).spawned = [] ∧
    (startSM ⟨5, fun _ => true, some 100⟩
        { newServiceManager "svc" 9000 8080 with cooldownUntil := 10 }).state.status.phase =
      "Cooldown" ∧
    (startSM ⟨5, fun _ => true, some 100⟩
        { newServiceManager "svc" 9000 8080 with cooldownUntil := 10 }).state.status.inCooldown =
      true ∧
    (startSM ⟨5, fun _ => true, some 100⟩
        { newServiceManager "svc" 9000 8080 with cooldownUntil := 10 }).state.cmd =
      { newServiceManager "svc" 9000 8080 with cooldownUntil := 10 }.cmd :=
  start_refused_in_cooldown ⟨5, fun _ => true, some 100⟩
    { newServiceManager "svc" 9000 8080 with cooldownUntil := 10 } (by decide)

/-- C8: `Restart` observationally equals `Stop` followed by `Start`: the
resulting states agree once `restartCount` is forgotten, the returned
error and the spawned and signalled pids agree, and `Restart` leaves
`restartCount` exactly one above its pre-call value (which `Stop` and
`Start` both preserve). -/
theorem restart_is_stop_then_start (env : StartEnv) (sm : SMState) :
    (restartSM env sm).state.status.restartCount = sm.status.restartCount + 1 ∧
    (startSM env (stopSM sm).state).state.status.restartCount = sm.status.restartCount ∧
    eraseRestartCount (restartSM env sm).state
      = eraseRestartCount (startSM env (stopSM sm).state).state ∧
    (restartSM env sm).err = (startSM env (stopSM sm).state).err ∧
    (restartSM env sm).spawned = (startSM env (stopSM sm).state).spawned ∧
    (restartSM env sm).killed
      = (stopSM sm).killed ++ (startSM env (stopSM sm).state).killed := by
  obtain ⟨now, avail, spawn⟩ := env
  obtain ⟨a, b, st, cmdv, fc, cu, bs⟩ := sm
  obtain ⟨nm, ph, lp, pd, stt, rc, le, ic⟩ := st
  cases cmdv <;> cases spawn <;>
    simp only [restartSM, stopSM, startSM, isInCooldown, resolvePort, isPortAvailable,
      handleFailure, eraseRestartCount] <;>
    repeat' split
  all_goals exact ⟨rfl, rfl, rfl, rfl, rfl, rfl⟩

end Kpf
